import Mathlib

/-!
# SmartVendo+ — shallow embedding of the points-ledger core

Embeds the ledger / redemption transaction core of the repository
(`src/app.py`, `src/config.py`): the `users`, `rewards`, `deposits` and
`redeems` tables, and the handlers `api_user_register`, `api_user_deposit`,
`api_user_redeem` and `api_admin_rewards` (POST and PUT branches).

Conventions of the embedding:
* SQLite rows become Lean structures with the source's column names;
  each table is a list of rows, and the `AUTOINCREMENT` primary keys are
  modelled by `nextUserId` / `nextRewardId` counters on the database value.
* `balance` is stored as `REAL` in the schema but only ever holds integer
  values (initial `0.0`, plus/minus integer point amounts), so it is an
  `Int` here; `cost`, `stock` and point amounts are Python ints (`Int`).
* Timestamps are abstract `Nat` ticks; registration's
  `datetime.now() + timedelta(days=60)` is `now + 60` with time counted
  in days.
* A handler returning `jsonify({'success': False, 'message': m})` is a
  constructor of the handler's result inductive, one constructor per
  distinct message string in the source; an uncaught Python exception
  (subscripting a `None` row) is the dedicated `typeError` constructor.
* `SELECT ... WHERE` lookups become `List.find?`; an SQL `UPDATE ...
  WHERE id = ?` writes every row whose key matches, i.e. `List.map` with
  a conditional; `INSERT` appends to the list.
-/

/-- A row of the `users` table (src/app.py lines 49-61). -/
structure User where
  id : Nat
  rfid_uid : String
  student_id : String
  email : String
  expiration_date : Nat
  balance : Int
  is_active : Bool
deriving DecidableEq, Repr

/-- A row of the `rewards` table (src/app.py lines 78-90). -/
structure Reward where
  id : Nat
  name : String
  display_name : String
  image_filename : String
  cost : Int
  stock : Int
  is_active : Bool
  created_at : Nat
  updated_at : Nat
deriving DecidableEq, Repr

/-- A row of the `deposits` table (src/app.py lines 64-75). -/
structure Deposit where
  user_id : Nat
  item_type : String
  points_earned : Int
  status : String
  validation_result : String
deriving DecidableEq, Repr

/-- A row of the `redeems` table (src/app.py lines 93-103). -/
structure Redeem where
  user_id : Nat
  reward_id : Nat
  points_spent : Int
deriving DecidableEq, Repr

/-- The whole SQLite database `database/smartvendo.db`, restricted to the
four tables the ledger core touches. -/
structure DB where
  users : List User
  rewards : List Reward
  deposits : List Deposit
  redeems : List Redeem
  nextUserId : Nat
  nextRewardId : Nat
deriving DecidableEq, Repr

namespace Config

/-- `Config.POINTS_PER_PAPER` (src/config.py line 19). -/
def POINTS_PER_PAPER : Int := 5

/-- `Config.POINTS_PER_PLASTIC` (src/config.py line 20). -/
def POINTS_PER_PLASTIC : Int := 10

end Config

/-- `SELECT * FROM users WHERE id = ?` followed by `fetchone()`. -/
def findUser (db : DB) (user_id : Nat) : Option User :=
  db.users.find? (fun u => u.id == user_id)

/-- `SELECT * FROM rewards WHERE name = ? AND is_active = 1` followed by
`fetchone()` (src/app.py line 395). -/
def findActiveReward (db : DB) (reward_name : String) : Option Reward :=
  db.rewards.find? (fun r => r.name == reward_name && r.is_active)

/-- Outcomes of `api_user_register` (src/app.py lines 298-335), one
constructor per distinct response of the handler. -/
inductive RegisterResult
  /-- `'RFID UID required'` (line 307). -/
  | uidRequired
  /-- `'RFID already registered'` (line 314). -/
  | alreadyRegistered
  /-- `{'success': True, 'user_id': user_id, ...}` (lines 331-335). -/
  | registered (user_id : Nat)
deriving DecidableEq, Repr

/-- `api_user_register` (src/app.py lines 298-335): reject a falsy
(empty) uid, reject an already-registered uid, otherwise insert a user
with `expiration_date = now + 60 days`, `balance = 0.0`, `is_active = 1`. -/
def api_user_register (rfid_uid student_id email : String) (now : Nat)
    (db : DB) : RegisterResult × DB :=
  if rfid_uid = "" then (.uidRequired, db)
  else if (db.users.find? (fun u => u.rfid_uid == rfid_uid)).isSome then
    (.alreadyRegistered, db)
  else
    let user : User :=
      { id := db.nextUserId, rfid_uid, student_id, email
        expiration_date := now + 60, balance := 0, is_active := true }
    (.registered db.nextUserId,
      { db with users := db.users ++ [user], nextUserId := db.nextUserId + 1 })

/-- Outcomes of `api_user_deposit` (src/app.py lines 337-381). -/
inductive DepositResult
  /-- `'Invalid item type'` (line 347). -/
  | invalidItemType
  /-- `user['balance']` raised on a `None` row: the user id from the
  session has no `users` row; the handler has no guard for this. -/
  | typeError
  /-- `{'success': True, 'points_earned': .., 'new_balance': ..}`
  (lines 376-381). -/
  | completed (points_earned new_balance : Int)
deriving DecidableEq, Repr

/-- `api_user_deposit` (src/app.py lines 337-381): validate the item
type, award `5` for paper / `10` for plastic (line 352), overwrite the
balance and insert a `completed`/`valid` deposit row. The session check
on line 340 is modelled by taking `user_id` as the bound session value;
the handler reads no clock and consults neither `is_active` nor
`expiration_date`. -/
def api_user_deposit (user_id : Nat) (item_type : String) (db : DB) :
    DepositResult × DB :=
  if !(item_type == "paper" || item_type == "plastic") then
    (.invalidItemType, db)
  else
    let points : Int := if item_type == "paper" then 5 else 10
    match findUser db user_id with
    | none => (.typeError, db)
    | some user =>
      let new_balance := user.balance + points
      let users := db.users.map (fun u =>
        if u.id == user_id then { u with balance := new_balance } else u)
      let row : Deposit :=
        { user_id, item_type, points_earned := points
          status := "completed", validation_result := "valid" }
      (.completed points new_balance,
        { db with users, deposits := db.deposits ++ [row] })

/-- Outcomes of `api_user_redeem` (src/app.py lines 383-445). -/
inductive RedeemResult
  /-- `'Reward not available'` (line 398): no active reward of that name. -/
  | rewardNotAvailable
  /-- `'Reward out of stock'` (line 401). -/
  | outOfStock
  /-- `user['balance']` raised on a `None` row (no guard in the handler). -/
  | typeError
  /-- `'Insufficient points'` (line 407). -/
  | insufficientPoints
  /-- `{'success': True, 'reward_name': .., 'points_spent': ..,
  'new_balance': ..}` (lines 439-445). -/
  | redeemed (reward_name : String) (points_spent new_balance : Int)
deriving DecidableEq, Repr

/-- Result of the validation half of `api_user_redeem`. -/
inductive RedeemCheck
  | failed (res : RedeemResult)
  | ok (reward : Reward) (user : User)
deriving DecidableEq, Repr

/-- The read/validate half of `api_user_redeem` (src/app.py lines
394-407): fetch the reward and user rows and run the three checks,
returning the fetched snapshots. No lock is taken. -/
def redeemValidate (user_id : Nat) (reward_name : String) (db : DB) :
    RedeemCheck :=
  match findActiveReward db reward_name with
  | none => .failed .rewardNotAvailable
  | some reward =>
    if reward.stock ≤ 0 then .failed .outOfStock
    else
      match findUser db user_id with
      | none => .failed .typeError
      | some user =>
        if user.balance < reward.cost then .failed .insufficientPoints
        else .ok reward user

/-- The write/commit half of `api_user_redeem` (src/app.py lines
409-428): from the snapshots taken by the validation half, compute
`new_balance = balance - cost` and `new_stock = stock - 1`, write both
absolute values back, insert the `redeems` row, and commit. The three
writes and the commit are one atomic step (a single SQLite commit), but
they use the snapshot values, not the state at commit time. -/
def redeemCommit (user_id : Nat) (reward : Reward) (user : User) (db : DB) :
    RedeemResult × DB :=
  let new_balance := user.balance - reward.cost
  let new_stock := reward.stock - 1
  let users := db.users.map (fun u =>
    if u.id == user_id then { u with balance := new_balance } else u)
  let rewards := db.rewards.map (fun r =>
    if r.id == reward.id then { r with stock := new_stock } else r)
  let row : Redeem :=
    { user_id, reward_id := reward.id, points_spent := reward.cost }
  (.redeemed reward.display_name reward.cost new_balance,
    { db with users, rewards, redeems := db.redeems ++ [row] })

/-- `api_user_redeem` (src/app.py lines 383-445): the validation half
followed immediately by the commit half (the sequential execution of the
handler). -/
def api_user_redeem (user_id : Nat) (reward_name : String) (db : DB) :
    RedeemResult × DB :=
  match redeemValidate user_id reward_name db with
  | .failed res => (res, db)
  | .ok reward user => redeemCommit user_id reward user db

/-- Request body of the POST branch of `api_admin_rewards` (src/app.py
lines 475-497); `none` means the JSON key is absent. -/
structure CreateRewardRequest where
  name : Option String
  display_name : Option String
  image_filename : Option String
  cost : Option Int
  stock : Option Int
deriving DecidableEq, Repr

/-- Outcomes of the POST branch of `api_admin_rewards`. -/
inductive CreateRewardResult
  /-- `'Reward name required'` (line 485). -/
  | nameRequired
  /-- `'Reward name already exists'` (line 497, from the UNIQUE
  constraint raising `sqlite3.IntegrityError`). -/
  | duplicateName
  /-- `'Reward created successfully'` (line 495). -/
  | created
deriving DecidableEq, Repr

/-- POST branch of `api_admin_rewards` (src/app.py lines 475-497):
`display_name` defaults to `name`, `image_filename` to `f'{name}.png'`,
`cost` and `stock` both default to `0`; the only validations are the
falsy-name check and the UNIQUE(name) constraint. The inserted row gets
the schema defaults `is_active = 1` and current timestamps. -/
def api_admin_rewards_post (req : CreateRewardRequest) (now : Nat)
    (db : DB) : CreateRewardResult × DB :=
  let name := req.name.getD ""
  if name = "" then (.nameRequired, db)
  else if (db.rewards.find? (fun r => r.name == name)).isSome then
    (.duplicateName, db)
  else
    let row : Reward :=
      { id := db.nextRewardId, name
        display_name := req.display_name.getD name
        image_filename := req.image_filename.getD (name ++ ".png")
        cost := req.cost.getD 0, stock := req.stock.getD 0
        is_active := true, created_at := now, updated_at := now }
    (.created,
      { db with rewards := db.rewards ++ [row]
                nextRewardId := db.nextRewardId + 1 })

/-- Request body of the PUT branch of `api_admin_rewards` (src/app.py
lines 499-543); `none` means the JSON key is absent (`'cost' in data`
is false). -/
structure UpdateRewardRequest where
  id : Option Nat
  display_name : Option String
  image_filename : Option String
  cost : Option Int
  stock : Option Int
  is_active : Option Bool
deriving DecidableEq, Repr

/-- Outcomes of the PUT branch of `api_admin_rewards`. -/
inductive UpdateRewardResult
  /-- `'Reward ID required'` (line 505). -/
  | idRequired
  /-- `'No fields to update'` (line 532). -/
  | noFieldsToUpdate
  /-- `'Reward updated successfully'` (line 543) — returned whether or
  not any row matched the id. -/
  | updated
deriving DecidableEq, Repr

/-- The dynamically built `UPDATE rewards SET ...` applied to one row
(src/app.py lines 508-537): each supplied field overwrites the column,
and `updated_at = CURRENT_TIMESTAMP` is always appended (line 534). -/
def applyRewardUpdate (req : UpdateRewardRequest) (now : Nat)
    (r : Reward) : Reward :=
  { r with
    display_name := req.display_name.getD r.display_name
    image_filename := req.image_filename.getD r.image_filename
    cost := req.cost.getD r.cost
    stock := req.stock.getD r.stock
    is_active := req.is_active.getD r.is_active
    updated_at := now }

/-- Whether at least one updatable field is supplied (the `updates`
list of src/app.py lines 508-529 is non-empty). -/
def hasUpdateField (req : UpdateRewardRequest) : Bool :=
  req.display_name.isSome || req.image_filename.isSome ||
    req.cost.isSome || req.stock.isSome || req.is_active.isSome

/-- PUT branch of `api_admin_rewards` (src/app.py lines 499-543):
`if not reward_id` rejects an absent id and the falsy id `0`; an empty
field set is rejected; otherwise the UPDATE runs against every row whose
id matches (possibly none) and the handler reports success
unconditionally. -/
def api_admin_rewards_put (req : UpdateRewardRequest) (now : Nat)
    (db : DB) : UpdateRewardResult × DB :=
  match req.id with
  | none => (.idRequired, db)
  | some reward_id =>
    if reward_id = 0 then (.idRequired, db)
    else if !hasUpdateField req then (.noFieldsToUpdate, db)
    else
      (.updated,
        { db with rewards := db.rewards.map (fun r =>
            if r.id == reward_id then applyRewardUpdate req now r else r) })

/-- One core ledger operation, as driven by the user-facing handlers. -/
inductive Op
  | register (rfid_uid student_id email : String) (now : Nat)
  | deposit (user_id : Nat) (item_type : String)
  | redeem (user_id : Nat) (reward_name : String)
deriving DecidableEq, Repr

/-- Apply one operation to the database (the state effect of one handler
call). -/
def applyOp (db : DB) : Op → DB
  | .register r s e n => (api_user_register r s e n db).2
  | .deposit uid it => (api_user_deposit uid it db).2
  | .redeem uid rn => (api_user_redeem uid rn db).2

/-- Apply a sequence of operations in order. -/
def applyOps (db : DB) (ops : List Op) : DB := ops.foldl applyOp db

/-- Sum of `points_earned` over the `completed` deposit rows of one
account (the reconciliation measure of spec §8). -/
def completedDepositSum (uid : Nat) : List Deposit → Int
  | [] => 0
  | d :: ds =>
    (if d.user_id = uid ∧ d.status = "completed" then d.points_earned else 0)
      + completedDepositSum uid ds

/-- Sum of `points_spent` over the redemption rows of one account. -/
def redemptionSum (uid : Nat) : List Redeem → Int
  | [] => 0
  | r :: rs =>
    (if r.user_id = uid then r.points_spent else 0) + redemptionSum uid rs

/-- The database produced by `init_db` (src/app.py lines 42-129): no
users, the three default rewards, empty histories. -/
def initDB : DB :=
  { users := []
    rewards :=
      [ { id := 1, name := "pencil", display_name := "Pencil"
          image_filename := "pencil.png", cost := 100, stock := 50
          is_active := true, created_at := 0, updated_at := 0 }
      , { id := 2, name := "eraser", display_name := "Eraser"
          image_filename := "eraser.png", cost := 150, stock := 30
          is_active := true, created_at := 0, updated_at := 0 }
      , { id := 3, name := "ballpen", display_name := "Ballpen"
          image_filename := "ballpen.png", cost := 100, stock := 40
          is_active := true, created_at := 0, updated_at := 0 } ]
    deposits := [], redeems := [], nextUserId := 1, nextRewardId := 4 }

/-- The safety invariant of spec §3/§8: every balance and every stock is
non-negative. -/
def NonNegInv (db : DB) : Prop :=
  (∀ u ∈ db.users, 0 ≤ u.balance) ∧ (∀ r ∈ db.rewards, 0 ≤ r.stock)

/-- The reconciliation invariant of spec §8, together with the
bookkeeping facts making it inductive: every user id and every history
row's `user_id` is below the autoincrement counter, and every balance
equals the completed-deposit sum minus the redemption sum of its
account. -/
def LedgerInv (db : DB) : Prop :=
  (∀ u ∈ db.users, u.id < db.nextUserId) ∧
  (∀ d ∈ db.deposits, d.user_id < db.nextUserId) ∧
  (∀ r ∈ db.redeems, r.user_id < db.nextUserId) ∧
  (∀ u ∈ db.users, u.balance =
    completedDepositSum u.id db.deposits - redemptionSum u.id db.redeems)

/-- Fixture: a registered, active account with balance 100. -/
def alice : User :=
  { id := 1, rfid_uid := "4F:31:10:E8", student_id := "2025-001"
    email := "alice@nu.edu.ph", expiration_date := 60, balance := 100
    is_active := true }

/-- Fixture: a second registered, active account with balance 100. -/
def bob : User :=
  { id := 2, rfid_uid := "AB:CD:EF:01", student_id := "2025-002"
    email := "bob@nu.edu.ph", expiration_date := 60, balance := 100
    is_active := true }

/-- Fixture: the `pencil` reward at cost 100 with a single unit left. -/
def pencilLast : Reward :=
  { id := 1, name := "pencil", display_name := "Pencil"
    image_filename := "pencil.png", cost := 100, stock := 1
    is_active := true, created_at := 0, updated_at := 0 }

/-- Fixture for the C6 scenario: balance 100 against pencil cost 100,
stock 1. -/
def dbC6 : DB :=
  { users := [alice], rewards := [pencilLast], deposits := [], redeems := []
    nextUserId := 2, nextRewardId := 2 }

/-- Fixture for the first C5 scenario: balance 100, pencil stock 0. -/
def dbC5stock0 : DB :=
  { dbC6 with rewards := [{ pencilLast with stock := 0 }] }

/-- Fixture for the second C5 scenario: balance 50 against cost 100. -/
def dbC5poor : DB :=
  { dbC6 with users := [{ alice with balance := 50 }] }

/-- Fixture for C3: a deactivated, long-expired account with balance 0. -/
def dbC3 : DB :=
  { users := [{ id := 1, rfid_uid := "11:22:33:44", student_id := ""
                email := "", expiration_date := 0, balance := 0
                is_active := false }]
    rewards := [], deposits := [], redeems := []
    nextUserId := 2, nextRewardId := 1 }

/-- Fixture for C9: two accounts with sufficient balance and one unit of
pencil stock. -/
def dbRace : DB :=
  { users := [alice, bob], rewards := [pencilLast], deposits := []
    redeems := [], nextUserId := 3, nextRewardId := 2 }

/-- Fixture for C7: a freshly registered account with balance 0. -/
def dave : User :=
  { id := 1, rfid_uid := "77:88:99:AA", student_id := "2025-004"
    email := "dave@nu.edu.ph", expiration_date := 60, balance := 0
    is_active := true }

/-- Fixture database holding only `dave`. -/
def dbC7 : DB :=
  { users := [dave], rewards := [], deposits := [], redeems := []
    nextUserId := 2, nextRewardId := 1 }

/-- Fixture: a demonstration run for the C1 witness. -/
def opsC1 : List Op :=
  [ .deposit 1 "paper", .deposit 2 "plastic", .redeem 1 "pencil"
  , .redeem 2 "pencil", .register "FE:DC:BA:98" "2025-003" "c@nu.edu.ph" 7
  , .deposit 3 "paper" ]

/-- Fixture: a demonstration run for the C2 witness. -/
def opsC2 : List Op :=
  [ .register "4F:31:10:E8" "2025-001" "alice@nu.edu.ph" 0
  , .deposit 1 "plastic", .deposit 1 "plastic", .deposit 1 "plastic"
  , .deposit 1 "plastic", .deposit 1 "plastic", .deposit 1 "plastic"
  , .deposit 1 "plastic", .deposit 1 "plastic", .deposit 1 "plastic"
  , .deposit 1 "plastic", .deposit 1 "glass", .redeem 1 "pencil"
  , .redeem 1 "eraser", .deposit 1 "paper", .redeem 9 "ballpen" ]

/-! ## Helper lemmas -/

theorem findUser_spec {db : DB} {uid : Nat} {u : User}
    (h : findUser db uid = some u) : u ∈ db.users ∧ u.id = uid := by
  unfold findUser at h
  refine ⟨List.mem_of_find?_eq_some h, ?_⟩
  have hp := List.find?_some h
  simpa using hp

theorem findActiveReward_spec {db : DB} {rn : String} {r : Reward}
    (h : findActiveReward db rn = some r) :
    r ∈ db.rewards ∧ r.name = rn ∧ r.is_active = true := by
  unfold findActiveReward at h
  refine ⟨List.mem_of_find?_eq_some h, ?_⟩
  have hp := List.find?_some h
  simp only [Bool.and_eq_true, beq_iff_eq] at hp
  exact hp

theorem completedDepositSum_append (uid : Nat) (l1 l2 : List Deposit) :
    completedDepositSum uid (l1 ++ l2)
      = completedDepositSum uid l1 + completedDepositSum uid l2 := by
  induction l1 with
  | nil => simp [completedDepositSum]
  | cons d ds ih => simp [completedDepositSum, ih]; ring

theorem redemptionSum_append (uid : Nat) (l1 l2 : List Redeem) :
    redemptionSum uid (l1 ++ l2)
      = redemptionSum uid l1 + redemptionSum uid l2 := by
  induction l1 with
  | nil => simp [redemptionSum]
  | cons r rs ih => simp [redemptionSum, ih]; ring

theorem completedDepositSum_fresh {uid : Nat} {l : List Deposit}
    (h : ∀ d ∈ l, d.user_id ≠ uid) : completedDepositSum uid l = 0 := by
  induction l with
  | nil => rfl
  | cons d ds ih =>
    have hd : d.user_id ≠ uid := h d (List.mem_cons_self d ds)
    simp only [completedDepositSum]
    rw [if_neg (fun hc => hd hc.1),
      ih (fun x hx => h x (List.mem_cons_of_mem d hx))]
    simp

theorem redemptionSum_fresh {uid : Nat} {l : List Redeem}
    (h : ∀ r ∈ l, r.user_id ≠ uid) : redemptionSum uid l = 0 := by
  induction l with
  | nil => rfl
  | cons r rs ih =>
    have hr : r.user_id ≠ uid := h r (List.mem_cons_self r rs)
    simp only [redemptionSum]
    rw [if_neg hr, ih (fun x hx => h x (List.mem_cons_of_mem r hx))]
    simp

theorem redeemValidate_ok {uid : Nat} {rn : String} {db : DB}
    {reward : Reward} {user : User}
    (h : redeemValidate uid rn db = .ok reward user) :
    findActiveReward db rn = some reward ∧ 0 < reward.stock ∧
      findUser db uid = some user ∧ reward.cost ≤ user.balance := by
  cases hfa : findActiveReward db rn with
  | none => simp [redeemValidate, hfa] at h
  | some reward0 =>
    by_cases hs : reward0.stock ≤ 0
    · simp [redeemValidate, hfa, hs] at h
    · cases hfu : findUser db uid with
      | none => simp [redeemValidate, hfa, hs, hfu] at h
      | some user0 =>
        by_cases hb : user0.balance < reward0.cost
        · simp [redeemValidate, hfa, hs, hfu, hb] at h
        · simp only [redeemValidate, hfa, hs, hfu, hb, if_neg, if_false,
            RedeemCheck.ok.injEq] at h
          obtain ⟨rfl, rfl⟩ := h
          exact ⟨rfl, by omega, rfl, by omega⟩

theorem api_user_register_empty {rfid : String} (sid em : String) (now : Nat)
    (db : DB) (h : rfid = "") :
    api_user_register rfid sid em now db = (.uidRequired, db) := by
  unfold api_user_register
  rw [if_pos h]

theorem api_user_register_dup {rfid : String} (sid em : String) (now : Nat)
    (db : DB) (h1 : rfid ≠ "") {u0 : User}
    (h2 : db.users.find? (fun u => u.rfid_uid == rfid) = some u0) :
    api_user_register rfid sid em now db = (.alreadyRegistered, db) := by
  unfold api_user_register
  rw [if_neg h1, h2]
  rfl

theorem api_user_register_fresh {rfid : String} (sid em : String) (now : Nat)
    (db : DB) (h1 : rfid ≠ "")
    (h2 : db.users.find? (fun u => u.rfid_uid == rfid) = none) :
    api_user_register rfid sid em now db =
      (.registered db.nextUserId,
        { db with
          users := db.users ++
            [{ id := db.nextUserId, rfid_uid := rfid, student_id := sid
               email := em, expiration_date := now + 60, balance := 0
               is_active := true }]
          nextUserId := db.nextUserId + 1 }) := by
  unfold api_user_register
  rw [if_neg h1, h2]
  rfl

theorem api_user_deposit_invalid {uid : Nat} {it : String} {db : DB}
    (hg : (it == "paper" || it == "plastic") = false) :
    api_user_deposit uid it db = (.invalidItemType, db) := by
  unfold api_user_deposit
  rw [hg]
  rfl

theorem api_user_deposit_missing {uid : Nat} {it : String} {db : DB}
    (hg : (it == "paper" || it == "plastic") = true)
    (hf : findUser db uid = none) :
    api_user_deposit uid it db = (.typeError, db) := by
  unfold api_user_deposit
  rw [hg, hf]
  rfl

theorem api_user_deposit_found {uid : Nat} {it : String} {db : DB}
    {user : User} (hg : (it == "paper" || it == "plastic") = true)
    (hf : findUser db uid = some user) :
    api_user_deposit uid it db =
      (.completed (if it == "paper" then 5 else 10)
          (user.balance + (if it == "paper" then 5 else 10)),
        { db with
          users := db.users.map (fun u =>
            if u.id == uid then
              { u with balance :=
                  user.balance + (if it == "paper" then 5 else 10) }
            else u)
          deposits := db.deposits ++
            [{ user_id := uid, item_type := it
               points_earned := (if it == "paper" then 5 else 10)
               status := "completed", validation_result := "valid" }] }) := by
  unfold api_user_deposit
  rw [hg, hf]
  rfl

theorem api_user_redeem_failed {uid : Nat} {rn : String} {db : DB}
    {res : RedeemResult} (h : redeemValidate uid rn db = .failed res) :
    api_user_redeem uid rn db = (res, db) := by
  unfold api_user_redeem
  rw [h]

theorem api_user_redeem_ok {uid : Nat} {rn : String} {db : DB}
    {reward : Reward} {user : User}
    (h : redeemValidate uid rn db = .ok reward user) :
    api_user_redeem uid rn db = redeemCommit uid reward user db := by
  unfold api_user_redeem
  rw [h]

/-! ## Invariant preservation -/

theorem nonNeg_register (r s e : String) (n : Nat) (db : DB)
    (h : NonNegInv db) : NonNegInv (api_user_register r s e n db).2 := by
  obtain ⟨hu, hr⟩ := h
  by_cases hrf : r = ""
  · rw [api_user_register_empty s e n db hrf]; exact ⟨hu, hr⟩
  · cases hfind : db.users.find? (fun u => u.rfid_uid == r) with
    | some u0 => rw [api_user_register_dup s e n db hrf hfind]; exact ⟨hu, hr⟩
    | none =>
      rw [api_user_register_fresh s e n db hrf hfind]
      refine ⟨?_, hr⟩
      intro v hv
      simp only [List.mem_append, List.mem_singleton] at hv
      rcases hv with hv | rfl
      · exact hu v hv
      · simp

theorem nonNeg_deposit (uid : Nat) (it : String) (db : DB)
    (h : NonNegInv db) : NonNegInv (api_user_deposit uid it db).2 := by
  obtain ⟨hu, hr⟩ := h
  cases hg : (it == "paper" || it == "plastic") with
  | false => rw [api_user_deposit_invalid hg]; exact ⟨hu, hr⟩
  | true =>
    cases hf : findUser db uid with
    | none => rw [api_user_deposit_missing hg hf]; exact ⟨hu, hr⟩
    | some user =>
      rw [api_user_deposit_found hg hf]
      refine ⟨?_, hr⟩
      intro v hv
      simp only [List.mem_map] at hv
      obtain ⟨w, hw, rfl⟩ := hv
      have hub := hu user (findUser_spec hf).1
      by_cases hid : (w.id == uid) = true
      · rw [if_pos hid]
        show 0 ≤ user.balance + (if it == "paper" then 5 else 10)
        split <;> omega
      · rw [if_neg hid]
        exact hu w hw

theorem nonNeg_redeem (uid : Nat) (rn : String) (db : DB)
    (h : NonNegInv db) : NonNegInv (api_user_redeem uid rn db).2 := by
  obtain ⟨hu, hr⟩ := h
  cases hv : redeemValidate uid rn db with
  | failed res => rw [api_user_redeem_failed hv]; exact ⟨hu, hr⟩
  | ok reward user =>
    obtain ⟨hfa, hst, hfu, hbc⟩ := redeemValidate_ok hv
    rw [api_user_redeem_ok hv]
    unfold redeemCommit
    constructor
    · intro v hv'
      simp only [List.mem_map] at hv'
      obtain ⟨w, hw, rfl⟩ := hv'
      by_cases hid : (w.id == uid) = true
      · rw [if_pos hid]
        show 0 ≤ user.balance - reward.cost
        omega
      · rw [if_neg hid]
        exact hu w hw
    · intro v hv'
      simp only [List.mem_map] at hv'
      obtain ⟨w, hw, rfl⟩ := hv'
      by_cases hid : (w.id == reward.id) = true
      · rw [if_pos hid]
        show 0 ≤ reward.stock - 1
        omega
      · rw [if_neg hid]
        exact hr w hw

theorem nonNeg_applyOp (op : Op) (db : DB) (h : NonNegInv db) :
    NonNegInv (applyOp db op) := by
  cases op with
  | register r s e n => exact nonNeg_register r s e n db h
  | deposit uid it => exact nonNeg_deposit uid it db h
  | redeem uid rn => exact nonNeg_redeem uid rn db h

theorem nonNeg_applyOps (ops : List Op) (db : DB) (h : NonNegInv db) :
    NonNegInv (applyOps db ops) := by
  induction ops generalizing db with
  | nil => exact h
  | cons op ops ih => exact ih (applyOp db op) (nonNeg_applyOp op db h)

theorem ledgerInv_register (r s e : String) (n : Nat) (db : DB)
    (h : LedgerInv db) : LedgerInv (api_user_register r s e n db).2 := by
  obtain ⟨hid, hdep, hred, hrec⟩ := h
  by_cases hrf : r = ""
  · rw [api_user_register_empty s e n db hrf]; exact ⟨hid, hdep, hred, hrec⟩
  · cases hfind : db.users.find? (fun u => u.rfid_uid == r) with
    | some u0 =>
      rw [api_user_register_dup s e n db hrf hfind]
      exact ⟨hid, hdep, hred, hrec⟩
    | none =>
      rw [api_user_register_fresh s e n db hrf hfind]
      refine ⟨?_, ?_, ?_, ?_⟩
      · intro v hv
        simp only [List.mem_append, List.mem_singleton] at hv
        rcases hv with hv | rfl
        · exact Nat.lt_succ_of_lt (hid v hv)
        · exact Nat.lt_succ_self _
      · intro d hd
        exact Nat.lt_succ_of_lt (hdep d hd)
      · intro x hx
        exact Nat.lt_succ_of_lt (hred x hx)
      · intro v hv
        simp only [List.mem_append, List.mem_singleton] at hv
        rcases hv with hv | rfl
        · exact hrec v hv
        · show (0 : Int) = completedDepositSum db.nextUserId db.deposits
            - redemptionSum db.nextUserId db.redeems
          rw [completedDepositSum_fresh
              (fun d hd => Nat.ne_of_lt (hdep d hd)),
            redemptionSum_fresh (fun x hx => Nat.ne_of_lt (hred x hx))]
          simp

theorem ledgerInv_deposit (uid : Nat) (it : String) (db : DB)
    (h : LedgerInv db) : LedgerInv (api_user_deposit uid it db).2 := by
  obtain ⟨hid, hdep, hred, hrec⟩ := h
  cases hg : (it == "paper" || it == "plastic") with
  | false => rw [api_user_deposit_invalid hg]; exact ⟨hid, hdep, hred, hrec⟩
  | true =>
    cases hf : findUser db uid with
    | none =>
      rw [api_user_deposit_missing hg hf]
      exact ⟨hid, hdep, hred, hrec⟩
    | some user =>
      rw [api_user_deposit_found hg hf]
      obtain ⟨humem, huid⟩ := findUser_spec hf
      refine ⟨?_, ?_, ?_, ?_⟩
      · intro v hv
        simp only [List.mem_map] at hv
        obtain ⟨w, hw, rfl⟩ := hv
        by_cases hwid : (w.id == uid) = true
        · rw [if_pos hwid]; exact hid w hw
        · rw [if_neg hwid]; exact hid w hw
      · intro d hd
        simp only [List.mem_append, List.mem_singleton] at hd
        rcases hd with hd | rfl
        · exact hdep d hd
        · show uid < db.nextUserId
          exact huid ▸ hid user humem
      · exact hred
      · intro v hv
        simp only [List.mem_map] at hv
        obtain ⟨w, hw, rfl⟩ := hv
        by_cases hwid : (w.id == uid) = true
        · rw [if_pos hwid]
          have hw' : w.id = uid := by simpa using hwid
          show user.balance + (if it == "paper" then 5 else 10)
            = completedDepositSum w.id
                (db.deposits ++
                  [{ user_id := uid, item_type := it
                     points_earned := (if it == "paper" then 5 else 10)
                     status := "completed", validation_result := "valid" }])
              - redemptionSum w.id db.redeems
          rw [hw', completedDepositSum_append]
          have hone : completedDepositSum uid
              [{ user_id := uid, item_type := it
                 points_earned := (if it == "paper" then 5 else 10)
                 status := "completed", validation_result := "valid" }]
              = (if it == "paper" then 5 else 10) := by
            simp [completedDepositSum]
          rw [hone]
          have hru := hrec user humem
          rw [huid] at hru
          omega
        · rw [if_neg hwid]
          have hw' : w.id ≠ uid := by simpa using hwid
          show w.balance
            = completedDepositSum w.id
                (db.deposits ++
                  [{ user_id := uid, item_type := it
                     points_earned := (if it == "paper" then 5 else 10)
                     status := "completed", validation_result := "valid" }])
              - redemptionSum w.id db.redeems
          rw [completedDepositSum_append,
            completedDepositSum_fresh (l :=
              [{ user_id := uid, item_type := it
                 points_earned := (if it == "paper" then 5 else 10)
                 status := "completed", validation_result := "valid" }])
              (by intro d hd; simp only [List.mem_singleton] at hd
                  subst hd; exact fun hc => hw' hc.symm)]
          have := hrec w hw
          omega

theorem ledgerInv_redeem (uid : Nat) (rn : String) (db : DB)
    (h : LedgerInv db) : LedgerInv (api_user_redeem uid rn db).2 := by
  obtain ⟨hid, hdep, hred, hrec⟩ := h
  cases hv : redeemValidate uid rn db with
  | failed res =>
    rw [api_user_redeem_failed hv]
    exact ⟨hid, hdep, hred, hrec⟩
  | ok reward user =>
    obtain ⟨hfa, hst, hfu, hbc⟩ := redeemValidate_ok hv
    rw [api_user_redeem_ok hv]
    obtain ⟨humem, huid⟩ := findUser_spec hfu
    unfold redeemCommit
    refine ⟨?_, ?_, ?_, ?_⟩
    · intro v hv'
      simp only [List.mem_map] at hv'
      obtain ⟨w, hw, rfl⟩ := hv'
      by_cases hwid : (w.id == uid) = true
      · rw [if_pos hwid]; exact hid w hw
      · rw [if_neg hwid]; exact hid w hw
    · exact hdep
    · intro x hx
      simp only [List.mem_append, List.mem_singleton] at hx
      rcases hx with hx | rfl
      · exact hred x hx
      · show uid < db.nextUserId
        exact huid ▸ hid user humem
    · intro v hv'
      simp only [List.mem_map] at hv'
      obtain ⟨w, hw, rfl⟩ := hv'
      by_cases hwid : (w.id == uid) = true
      · rw [if_pos hwid]
        have hw' : w.id = uid := by simpa using hwid
        show user.balance - reward.cost
          = completedDepositSum w.id db.deposits
            - redemptionSum w.id
                (db.redeems ++
                  [{ user_id := uid, reward_id := reward.id
                     points_spent := reward.cost }])
        rw [hw', redemptionSum_append]
        have hone : redemptionSum uid
            [{ user_id := uid, reward_id := reward.id
               points_spent := reward.cost }] = reward.cost := by
          simp [redemptionSum]
        rw [hone]
        have hru := hrec user humem
        rw [huid] at hru
        omega
      · rw [if_neg hwid]
        have hw' : w.id ≠ uid := by simpa using hwid
        show w.balance
          = completedDepositSum w.id db.deposits
            - redemptionSum w.id
                (db.redeems ++
                  [{ user_id := uid, reward_id := reward.id
                     points_spent := reward.cost }])
        rw [redemptionSum_append,
          redemptionSum_fresh (l :=
            [{ user_id := uid, reward_id := reward.id
               points_spent := reward.cost }])
            (by intro x hx; simp only [List.mem_singleton] at hx
                subst hx; exact fun hc => hw' hc.symm)]
        have := hrec w hw
        omega

theorem ledgerInv_applyOp (op : Op) (db : DB) (h : LedgerInv db) :
    LedgerInv (applyOp db op) := by
  cases op with
  | register r s e n => exact ledgerInv_register r s e n db h
  | deposit uid it => exact ledgerInv_deposit uid it db h
  | redeem uid rn => exact ledgerInv_redeem uid rn db h

theorem ledgerInv_applyOps (ops : List Op) (db : DB) (h : LedgerInv db) :
    LedgerInv (applyOps db ops) := by
  induction ops generalizing db with
  | nil => exact h
  | cons op ops ih => exact ih (applyOp db op) (ledgerInv_applyOp op db h)

theorem redeemValidate_noReward {uid : Nat} {rn : String} {db : DB}
    (h : findActiveReward db rn = none) :
    redeemValidate uid rn db = .failed .rewardNotAvailable := by
  unfold redeemValidate
  rw [h]

theorem redeemValidate_outOfStock {uid : Nat} {rn : String} {db : DB}
    {reward : Reward} (h : findActiveReward db rn = some reward)
    (hs : reward.stock ≤ 0) :
    redeemValidate uid rn db = .failed .outOfStock := by
  simp only [redeemValidate, h]
  rw [if_pos hs]

theorem redeemValidate_insufficient {uid : Nat} {rn : String} {db : DB}
    {reward : Reward} {user : User}
    (h : findActiveReward db rn = some reward) (hs : 0 < reward.stock)
    (hf : findUser db uid = some user) (hb : user.balance < reward.cost) :
    redeemValidate uid rn db = .failed .insufficientPoints := by
  simp only [redeemValidate, h, hf]
  rw [if_neg (by omega : ¬reward.stock ≤ 0), if_pos hb]

theorem api_admin_rewards_put_eq (req : UpdateRewardRequest) (now rid : Nat)
    (db : DB) (h1 : req.id = some rid) (h2 : rid ≠ 0)
    (h3 : hasUpdateField req = true) :
    api_admin_rewards_put req now db =
      (.updated,
        { db with rewards := db.rewards.map (fun r =>
            if r.id == rid then applyRewardUpdate req now r else r) }) := by
  simp only [api_admin_rewards_put, h1, h3]
  rw [if_neg h2]
  rfl

theorem map_update_no_match (req : UpdateRewardRequest) (now rid : Nat)
    (l : List Reward) (h : ∀ r ∈ l, r.id ≠ rid) :
    l.map (fun r => if r.id == rid then applyRewardUpdate req now r else r)
      = l := by
  induction l with
  | nil => rfl
  | cons r rs ih =>
    simp only [List.map_cons]
    rw [if_neg (by simpa using h r (List.mem_cons_self r rs)),
      ih (fun x hx => h x (List.mem_cons_of_mem r hx))]

/-! ## Claim theorems -/

/-- C1: For every sequence of register, deposit and redeem operations run
from a state whose balances and stocks are all non-negative, every
account balance stays `≥ 0` and no redeem drives a reward stock below
`0` — redeem debits only when `balance ≥ cost` and decrements only when
`stock > 0`, and deposit only ever adds a positive award. -/
theorem claim_C1_balance_stock_nonneg (ops : List Op) (db : DB)
    (hu : ∀ u ∈ db.users, 0 ≤ u.balance)
    (hr : ∀ r ∈ db.rewards, 0 ≤ r.stock) :
    (∀ u ∈ (applyOps db ops).users, 0 ≤ u.balance) ∧
    (∀ r ∈ (applyOps db ops).rewards, 0 ≤ r.stock) :=
  nonNeg_applyOps ops db ⟨hu, hr⟩

/-- Witness for C1: a concrete run (two deposits, a successful and a
failing redeem, a registration, another deposit) from a concrete
non-negative state. -/
theorem claim_C1_balance_stock_nonneg_witness :
    ((∀ u ∈ dbRace.users, 0 ≤ u.balance) ∧
      (∀ r ∈ dbRace.rewards, 0 ≤ r.stock)) ∧
    ((∀ u ∈ (applyOps dbRace opsC1).users, 0 ≤ u.balance) ∧
      (∀ r ∈ (applyOps dbRace opsC1).rewards, 0 ≤ r.stock)) :=
  ⟨⟨by decide, by decide⟩,
    claim_C1_balance_stock_nonneg opsC1 dbRace (by decide) (by decide)⟩

/-- C2: starting from any reconcilable state (in particular the state a
registration creates, with balance 0 and no history rows mentioning the
new account), every sequence of deposits and redemptions keeps every
account's balance equal to the sum of `points_earned` over its completed
deposit rows minus the sum of `points_spent` over its redemption rows. -/
theorem claim_C2_ledger_reconciliation (ops : List Op) (db : DB)
    (h1 : ∀ u ∈ db.users, u.id < db.nextUserId)
    (h2 : ∀ d ∈ db.deposits, d.user_id < db.nextUserId)
    (h3 : ∀ r ∈ db.redeems, r.user_id < db.nextUserId)
    (h4 : ∀ u ∈ db.users, u.balance =
      completedDepositSum u.id db.deposits
        - redemptionSum u.id db.redeems) :
    ∀ u ∈ (applyOps db ops).users, u.balance =
      completedDepositSum u.id (applyOps db ops).deposits
        - redemptionSum u.id (applyOps db ops).redeems :=
  (ledgerInv_applyOps ops db ⟨h1, h2, h3, h4⟩).2.2.2

/-- Witness for C2: a run from the freshly initialised database — a
registration, ten plastic deposits, an invalid deposit, a successful
pencil redemption, a failing redemption, one paper deposit, and a redeem
from a nonexistent session. -/
theorem claim_C2_ledger_reconciliation_witness :
    ((∀ u ∈ initDB.users, u.id < initDB.nextUserId) ∧
      (∀ d ∈ initDB.deposits, d.user_id < initDB.nextUserId) ∧
      (∀ r ∈ initDB.redeems, r.user_id < initDB.nextUserId) ∧
      (∀ u ∈ initDB.users, u.balance =
        completedDepositSum u.id initDB.deposits
          - redemptionSum u.id initDB.redeems)) ∧
    (∀ u ∈ (applyOps initDB opsC2).users, u.balance =
      completedDepositSum u.id (applyOps initDB opsC2).deposits
        - redemptionSum u.id (applyOps initDB opsC2).redeems) :=
  ⟨⟨by decide, by decide, by decide, by decide⟩,
    claim_C2_ledger_reconciliation opsC2 initDB
      (by decide) (by decide) (by decide) (by decide)⟩

/-- C3 (code-bug evidence): `api_user_deposit` performs none of the
claimed account checks. On `dbC3`, whose only account has
`is_active = false` and an `expiration_date` in the past, a paper deposit
still succeeds, credits 5 points and appends a completed deposit row —
the handler never reads `is_active`, never reads `expiration_date`, and
takes no clock input at all. For an id with no account row, it raises an
uncaught `TypeError` instead of returning an `AccountNotFound` result. -/
theorem claim_C3_deposit_skips_account_checks :
    (api_user_deposit 1 "paper" dbC3).1 = .completed 5 5 ∧
    (api_user_deposit 1 "paper" dbC3).2.users.map (fun u => u.balance)
      = [5] ∧
    (api_user_deposit 1 "paper" dbC3).2.deposits =
      [{ user_id := 1, item_type := "paper", points_earned := 5
         status := "completed", validation_result := "valid" }] ∧
    api_user_deposit 7 "paper" dbC3 = (.typeError, dbC3) := by decide

/-- C5: every failing redeem — no active reward of the requested name,
stock exhausted, or balance below cost — returns the corresponding
discriminated failure and leaves the database (balances, stocks and
redemption history) entirely unchanged. -/
theorem claim_C5_redeem_failure_no_mutation (uid : Nat) (rn : String)
    (db : DB) :
    (findActiveReward db rn = none →
      api_user_redeem uid rn db = (.rewardNotAvailable, db)) ∧
    (∀ reward, findActiveReward db rn = some reward → reward.stock ≤ 0 →
      api_user_redeem uid rn db = (.outOfStock, db)) ∧
    (∀ reward user, findActiveReward db rn = some reward →
      0 < reward.stock → findUser db uid = some user →
      user.balance < reward.cost →
      api_user_redeem uid rn db = (.insufficientPoints, db)) := by
  refine ⟨?_, ?_, ?_⟩
  · intro h
    exact api_user_redeem_failed (redeemValidate_noReward h)
  · intro reward h hs
    exact api_user_redeem_failed (redeemValidate_outOfStock h hs)
  · intro reward user h hs hf hb
    exact api_user_redeem_failed (redeemValidate_insufficient h hs hf hb)

/-- Witness for C5: the two spec scenarios — balance 100 against pencil
stock 0 fails out-of-stock with no mutation, and balance 50 against cost
100 fails insufficient-points with no mutation. -/
theorem claim_C5_redeem_failure_no_mutation_witness :
    (findActiveReward dbC5stock0 "pencil"
        = some { pencilLast with stock := 0 } ∧
      ({ pencilLast with stock := 0 } : Reward).stock ≤ 0 ∧
      api_user_redeem 1 "pencil" dbC5stock0 = (.outOfStock, dbC5stock0)) ∧
    (findActiveReward dbC5poor "pencil" = some pencilLast ∧
      0 < pencilLast.stock ∧
      findUser dbC5poor 1 = some { alice with balance := 50 } ∧
      ({ alice with balance := 50 } : User).balance < pencilLast.cost ∧
      api_user_redeem 1 "pencil" dbC5poor = (.insufficientPoints, dbC5poor)) :=
  ⟨⟨by decide, by decide,
    (claim_C5_redeem_failure_no_mutation 1 "pencil" dbC5stock0).2.1
      { pencilLast with stock := 0 } (by decide) (by decide)⟩,
   ⟨by decide, by decide, by decide, by decide,
    (claim_C5_redeem_failure_no_mutation 1 "pencil" dbC5poor).2.2
      pencilLast { alice with balance := 50 }
      (by decide) (by decide) (by decide) (by decide)⟩⟩

/-- C6: a redeem of an active reward with at least one unit of stock, by
an account whose balance covers the cost, succeeds: the balance drops by
exactly the cost, the stock by exactly 1, and exactly one redemption row
with `points_spent = cost` is appended. -/
theorem claim_C6_redeem_success (uid : Nat) (rn : String) (db : DB)
    (reward : Reward) (user : User)
    (hfa : findActiveReward db rn = some reward)
    (hst : 1 ≤ reward.stock)
    (hfu : findUser db uid = some user)
    (hbc : reward.cost ≤ user.balance) :
    api_user_redeem uid rn db =
      (.redeemed reward.display_name reward.cost
          (user.balance - reward.cost),
        { db with
          users := db.users.map (fun u =>
            if u.id == uid then
              { u with balance := user.balance - reward.cost } else u)
          rewards := db.rewards.map (fun r =>
            if r.id == reward.id then
              { r with stock := reward.stock - 1 } else r)
          redeems := db.redeems ++
            [{ user_id := uid, reward_id := reward.id
               points_spent := reward.cost }] }) := by
  have hvok : redeemValidate uid rn db = .ok reward user := by
    simp only [redeemValidate, hfa, hfu]
    rw [if_neg (by omega : ¬reward.stock ≤ 0),
      if_neg (by omega : ¬user.balance < reward.cost)]
  rw [api_user_redeem_ok hvok]
  rfl

/-- Witness for C6: the spec scenario — balance 100, pencil cost 100,
stock 1 — redeems to balance 0, stock 0, and one redemption row with
`points_spent = 100`. -/
theorem claim_C6_redeem_success_witness :
    findActiveReward dbC6 "pencil" = some pencilLast ∧
    1 ≤ pencilLast.stock ∧
    findUser dbC6 1 = some alice ∧
    pencilLast.cost ≤ alice.balance ∧
    api_user_redeem 1 "pencil" dbC6 =
      (.redeemed pencilLast.display_name pencilLast.cost
          (alice.balance - pencilLast.cost),
        { dbC6 with
          users := dbC6.users.map (fun u =>
            if u.id == 1 then
              { u with balance := alice.balance - pencilLast.cost } else u)
          rewards := dbC6.rewards.map (fun r =>
            if r.id == pencilLast.id then
              { r with stock := pencilLast.stock - 1 } else r)
          redeems := dbC6.redeems ++
            [{ user_id := 1, reward_id := pencilLast.id
               points_spent := pencilLast.cost }] }) :=
  ⟨by decide, by decide, by decide, by decide,
    claim_C6_redeem_success 1 "pencil" dbC6 pencilLast alice
      (by decide) (by decide) (by decide) (by decide)⟩

/-- C7: a deposit of a recognised item kind awards exactly the configured
amount (`POINTS_PER_PAPER = 5` for paper, `POINTS_PER_PLASTIC = 10` for
plastic), raises the balance by that amount, appends exactly one
completed deposit row carrying that amount, and returns the updated
balance; an unrecognised kind fails with the invalid-item result and
changes nothing. -/
theorem claim_C7_deposit_award (uid : Nat) (it : String) (db : DB)
    (user : User) :
    (it = "paper" → findUser db uid = some user →
      api_user_deposit uid it db =
        (.completed Config.POINTS_PER_PAPER
            (user.balance + Config.POINTS_PER_PAPER),
          { db with
            users := db.users.map (fun u =>
              if u.id == uid then
                { u with balance := user.balance + Config.POINTS_PER_PAPER }
              else u)
            deposits := db.deposits ++
              [{ user_id := uid, item_type := "paper"
                 points_earned := Config.POINTS_PER_PAPER
                 status := "completed", validation_result := "valid" }] })) ∧
    (it = "plastic" → findUser db uid = some user →
      api_user_deposit uid it db =
        (.completed Config.POINTS_PER_PLASTIC
            (user.balance + Config.POINTS_PER_PLASTIC),
          { db with
            users := db.users.map (fun u =>
              if u.id == uid then
                { u with balance :=
                    user.balance + Config.POINTS_PER_PLASTIC }
              else u)
            deposits := db.deposits ++
              [{ user_id := uid, item_type := "plastic"
                 points_earned := Config.POINTS_PER_PLASTIC
                 status := "completed", validation_result := "valid" }] })) ∧
    (it ≠ "paper" → it ≠ "plastic" →
      api_user_deposit uid it db = (.invalidItemType, db)) := by
  refine ⟨?_, ?_, ?_⟩
  · rintro rfl hf
    rw [api_user_deposit_found (by decide) hf]
    rfl
  · rintro rfl hf
    rw [api_user_deposit_found (by decide) hf]
    rfl
  · intro h1 h2
    apply api_user_deposit_invalid
    rw [beq_eq_false_iff_ne.mpr h1, beq_eq_false_iff_ne.mpr h2]
    rfl

/-- Witness for C7: the spec scenario — depositing paper on an account
with balance 0 yields balance 5 and one completed row with
`points_earned = 5`. -/
theorem claim_C7_deposit_award_witness :
    ("paper" : String) = "paper" ∧
    findUser dbC7 1 = some dave ∧
    api_user_deposit 1 "paper" dbC7 =
      (.completed Config.POINTS_PER_PAPER
          (dave.balance + Config.POINTS_PER_PAPER),
        { dbC7 with
          users := dbC7.users.map (fun u =>
            if u.id == 1 then
              { u with balance := dave.balance + Config.POINTS_PER_PAPER }
            else u)
          deposits := dbC7.deposits ++
            [{ user_id := 1, item_type := "paper"
               points_earned := Config.POINTS_PER_PAPER
               status := "completed", validation_result := "valid" }] }) :=
  ⟨rfl, by decide,
    (claim_C7_deposit_award 1 "paper" dbC7 dave).1 rfl (by decide)⟩

/-- C4 counterexample: the catalog invariant `stock ≥ 0 ∧ cost > 0` is
not maintained by the admin handlers. Creating `gizmo` on the freshly
initialised database without supplying a cost succeeds and stores the
default cost `0` (not a rejection of non-positive cost), and updating
reward 1 with `stock = -5` succeeds and stores `-5`. -/
theorem claim_C4_no_validation_counterexample :
    (api_admin_rewards_post
        { name := some "gizmo", display_name := none
          image_filename := none, cost := none, stock := none }
        0 initDB).1 = .created ∧
    (api_admin_rewards_post
        { name := some "gizmo", display_name := none
          image_filename := none, cost := none, stock := none }
        0 initDB).2.rewards.map (fun r => r.cost) = [100, 150, 100, 0] ∧
    (api_admin_rewards_put
        { id := some 1, display_name := none, image_filename := none
          cost := none, stock := some (-5), is_active := none }
        0 initDB).1 = .updated ∧
    (api_admin_rewards_put
        { id := some 1, display_name := none, image_filename := none
          cost := none, stock := some (-5), is_active := none }
        0 initDB).2.rewards.map (fun r => r.stock) = [-5, 30, 40] := by
  decide

/-- C4 (amended): create and partial update perform no validation of
`cost` or `stock` — create stores the supplied values verbatim (each
defaulting to `0` when absent) for any integers including non-positive
ones, and update overwrites with any supplied values verbatim, so
catalog states with `cost ≤ 0` or `stock < 0` are reachable. -/
theorem claim_C4_amended_no_validation (nm : String) (c s : Int)
    (now : Nat) (db : DB) (h1 : nm ≠ "")
    (h2 : db.rewards.find? (fun r => r.name == nm) = none)
    (req : UpdateRewardRequest) (rid : Nat)
    (h3 : req.id = some rid) (h4 : rid ≠ 0)
    (h5 : hasUpdateField req = true) :
    api_admin_rewards_post
        { name := some nm, display_name := none, image_filename := none
          cost := some c, stock := some s } now db =
      (.created,
        { db with
          rewards := db.rewards ++
            [{ id := db.nextRewardId, name := nm, display_name := nm
               image_filename := nm ++ ".png", cost := c, stock := s
               is_active := true, created_at := now, updated_at := now }]
          nextRewardId := db.nextRewardId + 1 }) ∧
    (api_admin_rewards_put req now db =
      (.updated,
        { db with rewards := db.rewards.map (fun r =>
            if r.id == rid then applyRewardUpdate req now r else r) })) ∧
    (∀ r : Reward,
      (applyRewardUpdate req now r).cost = req.cost.getD r.cost ∧
      (applyRewardUpdate req now r).stock = req.stock.getD r.stock) := by
  refine ⟨?_, api_admin_rewards_put_eq req now rid db h3 h4 h5,
    fun r => ⟨rfl, rfl⟩⟩
  simp only [api_admin_rewards_post, Option.getD_some]
  rw [if_neg h1, h2]
  rfl

/-- Witness for C4 (amended): creating `widget` with cost `-7` and stock
`-3` succeeds verbatim, and an update request carrying `stock = -5` is
applied verbatim. -/
theorem claim_C4_amended_no_validation_witness :
    ("widget" : String) ≠ "" ∧
    initDB.rewards.find? (fun r => r.name == "widget") = none ∧
    (UpdateRewardRequest.id
        { id := some 2, display_name := none, image_filename := none
          cost := some 0, stock := some (-5), is_active := none }
      = some 2) ∧
    (2 : Nat) ≠ 0 ∧
    hasUpdateField
        { id := some 2, display_name := none, image_filename := none
          cost := some 0, stock := some (-5), is_active := none } = true ∧
    (api_admin_rewards_post
        { name := some "widget", display_name := none
          image_filename := none, cost := some (-7), stock := some (-3) }
        9 initDB =
      (.created,
        { initDB with
          rewards := initDB.rewards ++
            [{ id := initDB.nextRewardId, name := "widget"
               display_name := "widget"
               image_filename := "widget" ++ ".png", cost := -7
               stock := -3, is_active := true, created_at := 9
               updated_at := 9 }]
          nextRewardId := initDB.nextRewardId + 1 }) ∧
      (api_admin_rewards_put
          { id := some 2, display_name := none, image_filename := none
            cost := some 0, stock := some (-5), is_active := none }
          9 initDB =
        (.updated,
          { initDB with rewards := initDB.rewards.map (fun r =>
              if r.id == 2 then
                applyRewardUpdate
                  { id := some 2, display_name := none
                    image_filename := none, cost := some 0
                    stock := some (-5), is_active := none } 9 r
              else r) })) ∧
      (∀ r : Reward,
        (applyRewardUpdate
            { id := some 2, display_name := none, image_filename := none
              cost := some 0, stock := some (-5), is_active := none }
            9 r).cost =
          Option.getD (some 0) r.cost ∧
        (applyRewardUpdate
            { id := some 2, display_name := none, image_filename := none
              cost := some 0, stock := some (-5), is_active := none }
            9 r).stock =
          Option.getD (some (-5)) r.stock)) :=
  ⟨by decide, by decide, rfl, by decide, rfl,
    claim_C4_amended_no_validation "widget" (-7) (-3) 9 initDB
      (by decide) (by decide)
      { id := some 2, display_name := none, image_filename := none
        cost := some 0, stock := some (-5), is_active := none }
      2 rfl (by decide) rfl⟩

/-- C8 counterexample: a partial update naming an id with no matching
reward does not fail with a not-found result — it reports success and
leaves the whole database unchanged (`initDB` has rewards 1–3 only; the
update targets id 99). -/
theorem claim_C8_update_absent_id_counterexample :
    api_admin_rewards_put
        { id := some 99, display_name := none, image_filename := none
          cost := none, stock := some 7, is_active := none }
        5 initDB = (.updated, initDB) := by decide

/-- C8 (amended): a partial update with a non-zero id and at least one
supplied field applies exactly the supplied fields to the rewards whose
id matches, refreshing `updated_at` and preserving every unsupplied
field as well as `id`, `name` and `created_at`; when no reward carries
the given id the call still reports success and leaves the database
unchanged, rather than failing with a not-found error. -/
theorem claim_C8_amended_partial_update (req : UpdateRewardRequest)
    (rid now : Nat) (db : DB) (h1 : req.id = some rid) (h2 : rid ≠ 0)
    (h3 : hasUpdateField req = true) :
    (api_admin_rewards_put req now db).1 = .updated ∧
    (api_admin_rewards_put req now db).2.rewards =
      db.rewards.map (fun r =>
        if r.id == rid then applyRewardUpdate req now r else r) ∧
    (∀ r : Reward,
      (applyRewardUpdate req now r).display_name
          = req.display_name.getD r.display_name ∧
      (applyRewardUpdate req now r).image_filename
          = req.image_filename.getD r.image_filename ∧
      (applyRewardUpdate req now r).cost = req.cost.getD r.cost ∧
      (applyRewardUpdate req now r).stock = req.stock.getD r.stock ∧
      (applyRewardUpdate req now r).is_active
          = req.is_active.getD r.is_active ∧
      (applyRewardUpdate req now r).updated_at = now ∧
      (applyRewardUpdate req now r).id = r.id ∧
      (applyRewardUpdate req now r).name = r.name ∧
      (applyRewardUpdate req now r).created_at = r.created_at) ∧
    ((∀ r ∈ db.rewards, r.id ≠ rid) →
      api_admin_rewards_put req now db = (.updated, db)) := by
  refine ⟨?_, ?_, fun r =>
    ⟨rfl, rfl, rfl, rfl, rfl, rfl, rfl, rfl, rfl⟩, ?_⟩
  · rw [api_admin_rewards_put_eq req now rid db h1 h2 h3]
  · rw [api_admin_rewards_put_eq req now rid db h1 h2 h3]
  · intro hno
    rw [api_admin_rewards_put_eq req now rid db h1 h2 h3,
      map_update_no_match req now rid db.rewards hno]

/-- Witness for C8 (amended): updating only the stock of reward 2 in the
initialised catalog touches exactly that field of that reward. -/
theorem claim_C8_amended_partial_update_witness :
    (UpdateRewardRequest.id
        { id := some 2, display_name := some "Big Eraser"
          image_filename := none, cost := none, stock := none
          is_active := none }
      = some 2) ∧
    (2 : Nat) ≠ 0 ∧
    hasUpdateField
        { id := some 2, display_name := some "Big Eraser"
          image_filename := none, cost := none, stock := none
          is_active := none } = true ∧
    ((api_admin_rewards_put
        { id := some 2, display_name := some "Big Eraser"
          image_filename := none, cost := none, stock := none
          is_active := none } 3 initDB).1 = .updated ∧
      (api_admin_rewards_put
        { id := some 2, display_name := some "Big Eraser"
          image_filename := none, cost := none, stock := none
          is_active := none } 3 initDB).2.rewards =
        initDB.rewards.map (fun r =>
          if r.id == 2 then
            applyRewardUpdate
              { id := some 2, display_name := some "Big Eraser"
                image_filename := none, cost := none, stock := none
                is_active := none } 3 r
          else r)) :=
  ⟨rfl, by decide, rfl,
    (claim_C8_amended_partial_update
        { id := some 2, display_name := some "Big Eraser"
          image_filename := none, cost := none, stock := none
          is_active := none }
        2 3 initDB rfl (by decide) rfl).1,
    (claim_C8_amended_partial_update
        { id := some 2, display_name := some "Big Eraser"
          image_filename := none, cost := none, stock := none
          is_active := none }
        2 3 initDB rfl (by decide) rfl).2.1⟩

/-- C9 (code-bug evidence): the handler's validation reads and its
commit writes are separate steps on a shared database with no lock and
no re-check at commit time. In the interleaving where both requests run
their validation half against the same state (pencil stock 1, both
balances 100) before either commit, both requests pass validation, both
commits report success, two redemption rows are appended and both
balances are debited, while the stock falls only from 1 to 0 — two
units are vended from a stock of one, instead of exactly one success
and one out-of-stock failure. -/
theorem claim_C9_concurrent_redeem_race :
    redeemValidate 1 "pencil" dbRace = .ok pencilLast alice ∧
    redeemValidate 2 "pencil" dbRace = .ok pencilLast bob ∧
    (redeemCommit 1 pencilLast alice dbRace).1
      = .redeemed "Pencil" 100 0 ∧
    (redeemCommit 2 pencilLast bob
        (redeemCommit 1 pencilLast alice dbRace).2).1
      = .redeemed "Pencil" 100 0 ∧
    (redeemCommit 2 pencilLast bob
        (redeemCommit 1 pencilLast alice dbRace).2).2.redeems =
      [{ user_id := 1, reward_id := 1, points_spent := 100 },
       { user_id := 2, reward_id := 1, points_spent := 100 }] ∧
    (redeemCommit 2 pencilLast bob
        (redeemCommit 1 pencilLast alice dbRace).2).2.rewards.map
      (fun r => r.stock) = [0] ∧
    (redeemCommit 2 pencilLast bob
        (redeemCommit 1 pencilLast alice dbRace).2).2.users.map
      (fun u => u.balance) = [0, 0] := by decide

/-- C10: registering a non-empty, not-yet-registered card identifier
creates exactly one account with balance 0, `is_active = true` and
`expiration_date` exactly 60 days after the creation time, while
registering an already-registered identifier fails and creates
nothing. -/
theorem claim_C10_register_fresh_and_duplicate (rfid sid em : String)
    (now : Nat) (db : DB) :
    (rfid ≠ "" → db.users.find? (fun u => u.rfid_uid == rfid) = none →
      api_user_register rfid sid em now db =
        (.registered db.nextUserId,
          { db with
            users := db.users ++
              [{ id := db.nextUserId, rfid_uid := rfid
                 student_id := sid, email := em
                 expiration_date := now + 60, balance := 0
                 is_active := true }]
            nextUserId := db.nextUserId + 1 })) ∧
    (∀ u0, rfid ≠ "" →
      db.users.find? (fun u => u.rfid_uid == rfid) = some u0 →
      api_user_register rfid sid em now db = (.alreadyRegistered, db)) :=
  ⟨fun h1 h2 => api_user_register_fresh sid em now db h1 h2,
   fun _ h1 h2 => api_user_register_dup sid em now db h1 h2⟩

/-- Witness for C10: registering a fresh card on the initialised
database creates account 1 with balance 0, active, expiring at
`10 + 60`; re-registering alice's card on `dbC6` fails and changes
nothing. -/
theorem claim_C10_register_witness :
    (("4F:31:10:E8" : String) ≠ "" ∧
      initDB.users.find? (fun u => u.rfid_uid == "4F:31:10:E8") = none ∧
      api_user_register "4F:31:10:E8" "2025-001" "alice@nu.edu.ph" 10
          initDB =
        (.registered initDB.nextUserId,
          { initDB with
            users := initDB.users ++
              [{ id := initDB.nextUserId, rfid_uid := "4F:31:10:E8"
                 student_id := "2025-001", email := "alice@nu.edu.ph"
                 expiration_date := 10 + 60, balance := 0
                 is_active := true }]
            nextUserId := initDB.nextUserId + 1 })) ∧
    (dbC6.users.find? (fun u => u.rfid_uid == "4F:31:10:E8")
        = some alice ∧
      api_user_register "4F:31:10:E8" "2025-009" "other@nu.edu.ph" 10
          dbC6 = (.alreadyRegistered, dbC6)) :=
  ⟨⟨by decide, by decide,
    (claim_C10_register_fresh_and_duplicate "4F:31:10:E8" "2025-001"
        "alice@nu.edu.ph" 10 initDB).1 (by decide) (by decide)⟩,
   ⟨by decide,
    (claim_C10_register_fresh_and_duplicate "4F:31:10:E8" "2025-009"
        "other@nu.edu.ph" 10 dbC6).2 alice (by decide) (by decide)⟩⟩
